import Mathlib

/-!
Shallow embedding of `echo-stream.go` (package main): a streaming HTTP test
server with three handlers (`/upload`, `/download`, `/health`), a client-IP
resolution helper, and a fixed configuration block of constants.

Bytes are modelled as `Nat` values (the payload buffer is zero-initialised and
never mutated, so every payload byte is `0`).  Stateful streaming is modelled
by explicit state passing: the download loop threads the `written` counter and
returns the list of chunks actually put on the wire together with how the loop
ended.  The request context's cancellation signal and mid-stream write faults
are modelled as explicit schedules indexed by the loop iteration number, since
in the source they are external events observed at chunk boundaries.
-/

namespace EchoStream

/-! ## Configuration constants (echo-stream.go lines 17-24) -/

/-- `DefaultBufferSize = 32 * 1024` (32 KiB). -/
def DefaultBufferSize : Nat := 32 * 1024

/-- `MaxDownloadSize = 100 * 1024 * 1024` (100 MiB limit). -/
def MaxDownloadSize : Nat := 100 * 1024 * 1024

/-- `MaxUploadSize = 32 * 1024 * 1024` (32 MiB limit). -/
def MaxUploadSize : Nat := 32 * 1024 * 1024

/-- `DefaultDownloadSize = 2 * 1024 * 1024` (2 MiB default). -/
def DefaultDownloadSize : Nat := 2 * 1024 * 1024

/-- `ServerPort = ":8080"`: a string constant, used verbatim as the listen
address in `main` (line 154). -/
def ServerPort : String := ":8080"

/-! ## strconv.Atoi

The download handler parses the `size` query value with `strconv.Atoi`
(line 82).  On the 64-bit platforms this program is built for (see the
Dockerfile), `Atoi` is `ParseInt(s, 10, 0)` with `int` = `int64`: an optional
single leading `+` or `-`, then one or more ASCII digits; anything else, the
empty string, or a value outside `[-2^63, 2^63)` is an error.  We model the
error as `none` (the handler only tests `err != nil`). -/

/-- Numeric value of an ASCII digit, `none` on any other character. -/
def digitVal (c : Char) : Option Nat :=
  if '0' ≤ c ∧ c ≤ '9' then some (c.toNat - '0'.toNat) else none

/-- Accumulate a decimal digit string left to right; `none` on a non-digit. -/
def parseDigits (acc : Nat) : List Char → Option Nat
  | [] => some acc
  | c :: cs =>
    match digitVal c with
    | some d => parseDigits (acc * 10 + d) cs
    | none => none

/-- Model of Go `strconv.Atoi` on a 64-bit platform. -/
def atoi (s : String) : Option Int :=
  let stripped : Bool × List Char :=
    match s.data with
    | '+' :: rest => (false, rest)
    | '-' :: rest => (true, rest)
    | cs => (false, cs)
  match stripped with
  | (neg, ds) =>
    if ds = [] then none
    else
      match parseDigits 0 ds with
      | none => none
      | some n =>
        let v : Int := if neg then -(n : Int) else (n : Int)
        if v < -(2 ^ 63) ∨ (2 ^ 63 : Int) ≤ v then none else some v

/-! ## Download streaming loop (echo-stream.go lines 100-131) -/

/-- How one invocation of the download loop ended: ran to `written = size`
(`completed`), saw the request context done at a chunk boundary and returned
(`disconnected`, line 108-110), or hit a write error and returned
(`writeError`, line 120-123). -/
inductive Outcome where
  | completed
  | disconnected
  | writeError
deriving DecidableEq, Repr

/-- `buf := make([]byte, DefaultBufferSize)` (line 100): zero-initialised and
never written to, so it stays all zero bytes. -/
def downloadBuf : List Nat := List.replicate DefaultBufferSize 0

/-- The `for written < size` loop of `downloadHandler` (lines 105-131).

`cancelled k` tells whether the non-blocking `select` on `r.Context().Done()`
fires at the start of iteration `k`; `writeErr k = some m` means the `w.Write`
call of iteration `k` fails after `m` bytes actually reached the wire
(`m` is capped by the length of the slice passed to `Write`); `none` means the
write succeeds in full.  The result is the list of chunks written to the wire,
in order, and the outcome.  Each iteration writes `buf[:toWrite]` where
`toWrite = min DefaultBufferSize (size - written)` (lines 114-117). -/
def streamLoop (cancelled : Nat → Bool) (writeErr : Nat → Option Nat)
    (size : Nat) (k : Nat) (written : Nat) : List (List Nat) × Outcome :=
  if _h : written < size then
    if cancelled k then
      ([], Outcome.disconnected)
    else
      match writeErr k with
      | some m =>
          ([downloadBuf.take (min m (min DefaultBufferSize (size - written)))],
           Outcome.writeError)
      | none =>
          let rest := streamLoop cancelled writeErr size (k + 1)
            (written + min DefaultBufferSize (size - written))
          (downloadBuf.take (min DefaultBufferSize (size - written)) :: rest.1, rest.2)
  else
    ([], Outcome.completed)
termination_by size - written
decreasing_by
  have hb : 0 < DefaultBufferSize := by decide
  omega

/-! ## Download handler (echo-stream.go lines 72-134) -/

/-- Observable result of one `downloadHandler` invocation: the status code,
the headers it set, the error body written by `http.Error` (if any), the
payload chunks put on the wire, and how the streaming loop ended. -/
structure DownloadResponse where
  status : Nat
  contentType : Option String
  contentLength : Option Int
  errBody : Option String
  chunks : List (List Nat)
  outcome : Outcome

/-- `downloadHandler` (lines 72-134).  `sizeStr` is what
`r.URL.Query().Get("size")` returned (`""` when the parameter is absent or
has an empty value); a `""` is replaced by `strconv.Itoa(DefaultDownloadSize)`
(lines 75-77).  Parse failure or an out-of-bounds value is answered with
`http.Error(w, msg, 400)` before any payload byte is written (lines 82-94);
otherwise the handler sets the headers, answers 200 and runs the streaming
loop (lines 96-131). -/
def downloadHandler (sizeStr0 : String) (cancelled : Nat → Bool)
    (writeErr : Nat → Option Nat) : DownloadResponse :=
  let sizeStr := if sizeStr0 = "" then Nat.repr DefaultDownloadSize else sizeStr0
  match atoi sizeStr with
  | none =>
      { status := 400, contentType := none, contentLength := none,
        errBody := some "invalid size parameter", chunks := [], outcome := Outcome.completed }
  | some size =>
      if size ≤ 0 ∨ (MaxDownloadSize : Int) < size then
        { status := 400, contentType := none, contentLength := none,
          errBody := some "size must be between 1 and 104857600 bytes",
          chunks := [], outcome := Outcome.completed }
      else
        let r := streamLoop cancelled writeErr size.toNat 0 0
        { status := 200, contentType := some "application/octet-stream",
          contentLength := some size, errBody := none,
          chunks := r.1, outcome := r.2 }

/-- Total number of payload bytes put on the wire. -/
def chunksTotal (cs : List (List Nat)) : Nat := (cs.map List.length).sum

/-! ## Upload handler (echo-stream.go lines 49-70) -/

/-- Observable result of an upload or health request: status code, the
Content-Type header if the handler set one, and the response body. -/
structure HttpResponse where
  status : Nat
  contentType : Option String
  body : String
deriving DecidableEq, Repr

/-- Model of `io.Copy(io.Discard, http.MaxBytesReader(w, r.Body, MaxUploadSize))`
(lines 56-60): `bodyLen` is the length of the request body stream and
`readFault` tells whether an I/O fault occurs while reading it.
`MaxBytesReader` makes the copy fail as soon as more than `MaxUploadSize`
bytes arrive; otherwise the body is drained to the discard sink and the byte
count is returned. -/
def copyToDiscard (bodyLen : Nat) (readFault : Bool) : Except Unit Nat :=
  if readFault then Except.error ()
  else if MaxUploadSize < bodyLen then Except.error ()
  else Except.ok bodyLen

/-- `uploadHandler` (lines 49-70): any copy error is answered with
`http.Error(w, "Request too large or processing error", 413)`; success is
answered with status 200 and body `"ok"` (no explicit Content-Type is set). -/
def uploadHandler (bodyLen : Nat) (readFault : Bool) : HttpResponse :=
  match copyToDiscard bodyLen readFault with
  | Except.error _ =>
      { status := 413, contentType := some "text/plain; charset=utf-8",
        body := "Request too large or processing error\n" }
  | Except.ok _ => { status := 200, contentType := none, body := "ok" }

/-! ## Health handler (echo-stream.go lines 136-144) -/

/-- `healthHandler` (lines 136-144): the request's method, query and headers
are parameters only so that the theorem can quantify over them — the source
reads the request solely for its log line and always writes the same
response. -/
def healthHandler (_method _query : String) (_headers : List (String × String)) :
    HttpResponse :=
  { status := 200, contentType := some "text/plain", body := "healthy" }

/-! ## Client IP resolution (echo-stream.go lines 27-47)

`getClientIP` reads three headers with `r.Header.Get` (which yields `""` when
the header is absent) and falls back to `net.SplitHostPort(r.RemoteAddr)`.
The stdlib pieces it calls are modelled below: `strings.TrimSpace` trims the
Go whitespace class from both ends (`unicode.IsSpace`; we cover its Latin-1
range, which is exact for every ASCII input), `strings.Split(s, ",")[0]` is
the prefix of `s` before its first comma, and `net.SplitHostPort` follows the
stdlib's host:port parse, including the bracketed `[host]:port` form and its
error cases. -/

/-- Go `unicode.IsSpace` on the Latin-1 range. -/
def goIsSpace (c : Char) : Bool :=
  c = ' ' || c = '\t' || c = '\n' || c = '\x0b' || c = '\x0c' || c = '\r' ||
    c = '\x85' || c = '\xa0'

/-- Model of Go `strings.TrimSpace`. -/
def trimSpace (s : String) : String :=
  String.mk (((s.data.dropWhile goIsSpace).reverse.dropWhile goIsSpace).reverse)

/-- Index of the last `':'` in a character list, as in Go
`strings.LastIndexByte(s, ':')`. -/
def lastColonIdx : List Char → Option Nat
  | [] => none
  | c :: cs =>
    match lastColonIdx cs with
    | some j => some (j + 1)
    | none => if c = ':' then some 0 else none

/-- Index of the first occurrence of `t`, as in Go `strings.IndexByte`. -/
def firstIdxOf (t : Char) : List Char → Option Nat
  | [] => none
  | c :: cs => if c = t then some 0 else (firstIdxOf t cs).map (· + 1)

/-- Model of Go `net.SplitHostPort`: split `host:port` (or `[host]:port`) at
the last colon; `none` models every error return (missing port, too many
colons, bracket errors). -/
def splitHostPort (s : String) : Option (String × String) :=
  let cs := s.data
  match lastColonIdx cs with
  | none => none
  | some i =>
    let port := String.mk (cs.drop (i + 1))
    match cs with
    | '[' :: _ =>
      match firstIdxOf ']' cs with
      | none => none
      | some e =>
        if e + 1 = cs.length then none
        else if e + 1 ≠ i then none
        else if ((cs.drop 1).contains '[' || (cs.drop (e + 1)).contains ']') then none
        else some (String.mk ((cs.drop 1).take (e - 1)), port)
    | _ =>
      if (cs.take i).contains ':' then none
      else if (cs.contains '[' || cs.contains ']') then none
      else some (String.mk (cs.take i), port)

/-- `getClientIP` (lines 27-47): CF-Connecting-IP first, then the first
comma-separated entry of X-Forwarded-For trimmed of whitespace, then
X-Real-IP, then the remote address with the port stripped (or the raw remote
address when `SplitHostPort` fails). -/
def getClientIP (cfConnectingIP xForwardedFor xRealIP remoteAddr : String) : String :=
  if cfConnectingIP ≠ "" then cfConnectingIP
  else if xForwardedFor ≠ "" then
    trimSpace (String.mk (xForwardedFor.data.takeWhile (fun c => c ≠ ',')))
  else if xRealIP ≠ "" then xRealIP
  else
    match splitHostPort remoteAddr with
    | none => remoteAddr
    | some (host, _) => host

/-! ## Listen address (echo-stream.go lines 146-159) -/

/-- The listen address `main` passes to `http.Server` (line 154).  The
parameter stands for the process environment (as `os.Getenv` would read it);
the source never consults the environment anywhere — the address is the
string constant `ServerPort` — which is what the C4 theorem records. -/
def serverListenAddr (_env : String → Option String) : String := ServerPort

/-! ## Helper lemmas about the streaming loop -/

/-- Bytes-on-the-wire total is the length of the flattened chunk list. -/
theorem chunksTotal_eq_flatten_length (L : List (List Nat)) :
    chunksTotal L = L.flatten.length := by
  rw [chunksTotal, List.length_flatten]

theorem chunksTotal_nil : chunksTotal [] = 0 := rfl

theorem chunksTotal_cons (a : List Nat) (l : List (List Nat)) :
    chunksTotal (a :: l) = a.length + chunksTotal l := by
  simp [chunksTotal]

/-- A slice of the download buffer is never longer than requested. -/
theorem take_length_le (t : Nat) : (downloadBuf.take t).length ≤ t := by
  simp [downloadBuf]

/-- With no cancellation and no write fault, the loop emits exactly
`size - written` zero bytes and completes. -/
theorem streamLoop_full (n : Nat) : ∀ size k written, size - written ≤ n →
    (streamLoop (fun _ => false) (fun _ => none) size k written).1.flatten
        = List.replicate (size - written) 0
    ∧ (streamLoop (fun _ => false) (fun _ => none) size k written).2 = Outcome.completed := by
  induction n with
  | zero =>
    intro size k written h
    have hw : ¬ written < size := by omega
    rw [streamLoop]
    simp [hw]
    omega
  | succ n ih =>
    intro size k written h
    by_cases hw : written < size
    · rw [streamLoop]
      simp only [hw, dif_pos, Bool.false_eq_true, if_false]
      have hB : 0 < DefaultBufferSize := by decide
      obtain ⟨h1, h2⟩ := ih size (k + 1) (written + min DefaultBufferSize (size - written))
        (by omega)
      have htake : downloadBuf.take (min DefaultBufferSize (size - written))
          = List.replicate (min DefaultBufferSize (size - written)) 0 := by
        rw [downloadBuf, List.take_replicate]
        congr 1
        omega
      refine ⟨?_, h2⟩
      simp only [List.flatten_cons, htake, h1]
      rw [← List.replicate_add]
      congr 1
      omega
    · rw [streamLoop]
      simp [hw]
      omega

/-- Under every cancellation and write-fault schedule, no prefix of the wire
trace exceeds `size` bytes once the `written` bytes already counted are
included. -/
theorem streamLoop_take_le (cancelled : Nat → Bool) (writeErr : Nat → Option Nat) (n : Nat) :
    ∀ size k written, size - written ≤ n → written ≤ size → ∀ m,
      written + chunksTotal (((streamLoop cancelled writeErr size k written).1).take m)
        ≤ size := by
  induction n with
  | zero =>
    intro size k written h hle m
    have hw : ¬ written < size := by omega
    rw [streamLoop]
    simp [hw, chunksTotal]
    omega
  | succ n ih =>
    intro size k written h hle m
    by_cases hw : written < size
    · rw [streamLoop]
      simp only [hw, dif_pos]
      by_cases hc : cancelled k
      · simp [hc, chunksTotal]
        omega
      · simp only [hc, Bool.false_eq_true, if_false]
        cases hwe : writeErr k with
        | some mf =>
          cases m with
          | zero => simpa [chunksTotal] using hle
          | succ m2 =>
            have hl : (downloadBuf.take (min mf (min DefaultBufferSize (size - written)))).length
                ≤ size - written := by
              have := take_length_le (min mf (min DefaultBufferSize (size - written)))
              omega
            simp only [List.take_succ_cons, chunksTotal_cons, List.take_nil, chunksTotal_nil]
            omega
        | none =>
          cases m with
          | zero => simpa [chunksTotal] using hle
          | succ m2 =>
            have hB : 0 < DefaultBufferSize := by decide
            have hrec := ih size (k + 1) (written + min DefaultBufferSize (size - written))
              (by omega) (by omega) m2
            have hl := take_length_le (min DefaultBufferSize (size - written))
            simp only [List.take_succ_cons, chunksTotal_cons]
            omega
    · rw [streamLoop]
      simp [hw, chunksTotal]
      omega

/-- With the cancellation signal observed from check number `c` on, at most
`c - k` further chunks are written: nothing is written at or after check `c`,
because the signal is polled before every write. -/
theorem streamLoop_cancel_length (writeErr : Nat → Option Nat) (c : Nat) (n : Nat) :
    ∀ size k written, size - written ≤ n →
      ((streamLoop (fun j => decide (c ≤ j)) writeErr size k written).1).length ≤ c - k := by
  induction n with
  | zero =>
    intro size k written h
    have hw : ¬ written < size := by omega
    rw [streamLoop]
    simp [hw]
  | succ n ih =>
    intro size k written h
    by_cases hw : written < size
    · rw [streamLoop]
      simp only [hw, dif_pos]
      by_cases hc : c ≤ k
      · simp [hc]
      · simp only [decide_eq_true_eq, hc, if_false]
        cases hwe : writeErr k with
        | some mf => simp; omega
        | none =>
          have hB : 0 < DefaultBufferSize := by decide
          have hrec := ih size (k + 1) (written + min DefaultBufferSize (size - written))
            (by omega)
          simp only [List.length_cons]
          omega
    · rw [streamLoop]
      simp [hw]

/-- Every chunk the loop puts on the wire is at most one buffer long. -/
theorem streamLoop_chunk_le (cancelled : Nat → Bool) (writeErr : Nat → Option Nat) (n : Nat) :
    ∀ size k written, size - written ≤ n →
      ∀ ch ∈ (streamLoop cancelled writeErr size k written).1,
        ch.length ≤ DefaultBufferSize := by
  induction n with
  | zero =>
    intro size k written h ch hch
    have hw : ¬ written < size := by omega
    rw [streamLoop] at hch
    simp [hw] at hch
  | succ n ih =>
    intro size k written h ch hch
    by_cases hw : written < size
    · rw [streamLoop] at hch
      simp only [hw, dif_pos] at hch
      by_cases hc : cancelled k
      · simp [hc] at hch
      · simp only [hc, Bool.false_eq_true, if_false] at hch
        cases hwe : writeErr k with
        | some mf =>
          rw [hwe] at hch
          simp at hch
          subst hch
          have := take_length_le (min mf (min DefaultBufferSize (size - written)))
          omega
        | none =>
          rw [hwe] at hch
          simp only [List.mem_cons] at hch
          rcases hch with hch | hch
          · subst hch
            have := take_length_le (min DefaultBufferSize (size - written))
            omega
          · have hB : 0 < DefaultBufferSize := by decide
            exact ih size (k + 1) (written + min DefaultBufferSize (size - written))
              (by omega) ch hch
    · rw [streamLoop] at hch
      simp [hw] at hch

/-- When no write ever faults, the loop never ends in `writeError`. -/
theorem streamLoop_noErr_outcome (cancelled : Nat → Bool) (n : Nat) :
    ∀ size k written, size - written ≤ n →
      (streamLoop cancelled (fun _ => none) size k written).2 ≠ Outcome.writeError := by
  induction n with
  | zero =>
    intro size k written h
    have hw : ¬ written < size := by omega
    rw [streamLoop]
    simp [hw]
  | succ n ih =>
    intro size k written h
    by_cases hw : written < size
    · rw [streamLoop]
      simp only [hw, dif_pos]
      by_cases hc : cancelled k
      · simp [hc]
      · simp only [hc, Bool.false_eq_true, if_false]
        have hB : 0 < DefaultBufferSize := by decide
        exact ih size (k + 1) (written + min DefaultBufferSize (size - written)) (by omega)
    · rw [streamLoop]
      simp [hw]

/-- A string accepted by `atoi` is not empty, so the download handler does not
substitute the default for it. -/
theorem atoi_ne_empty (q : String) (s : Int) (hq : atoi q = some s) : ¬ q = "" := by
  intro h
  subst h
  exact Option.noConfusion ((by decide : atoi "" = none).symm.trans hq)

/-- For a nonempty `size` value parsing to an in-bounds integer `s`, the
handler takes the success path: 200, the headers, and the streaming loop run
at `s.toNat` starting from `written = 0`. -/
theorem downloadHandler_valid_eq (q : String) (s : Int) (cancelled : Nat → Bool)
    (writeErr : Nat → Option Nat) (hq : atoi q = some s) (h1 : 0 < s)
    (h2 : s ≤ (MaxDownloadSize : Int)) :
    downloadHandler q cancelled writeErr =
      { status := 200, contentType := some "application/octet-stream",
        contentLength := some s, errBody := none,
        chunks := (streamLoop cancelled writeErr s.toNat 0 0).1,
        outcome := (streamLoop cancelled writeErr s.toNat 0 0).2 } := by
  have hne := atoi_ne_empty q s hq
  simp only [downloadHandler, if_neg hne, hq]
  rw [if_neg (by omega)]

/-- An omitted (empty) `size` value behaves like passing the default's
decimal rendering, matching lines 75-77 of the source. -/
theorem downloadHandler_default (cancelled : Nat → Bool) (writeErr : Nat → Option Nat) :
    downloadHandler "" cancelled writeErr
      = downloadHandler (Nat.repr DefaultDownloadSize) cancelled writeErr := by
  simp only [downloadHandler, reduceIte, ite_self]

theorem chunks_mk (a : Nat) (b : Option String) (c : Option Int) (d : Option String)
    (e : List (List Nat)) (f : Outcome) :
    (DownloadResponse.mk a b c d e f).chunks = e := rfl

theorem outcome_mk (a : Nat) (b : Option String) (c : Option Int) (d : Option String)
    (e : List (List Nat)) (f : Outcome) :
    (DownloadResponse.mk a b c d e f).outcome = f := rfl

/-! ## Claim theorems -/

/-- C1: for every size parameter value `s` with `0 < s ≤ MaxDownloadSize`
(the bound inclusive), the download handler responds 200, sets Content-Length
to `s`, and on normal completion (no cancellation, no write fault) the total
number of payload bytes written equals `s` exactly — also when `s` is the
buffer size or not a multiple of it, since the final partial chunk is neither
over- nor under-written. -/
theorem download_valid_size_exact (q : String) (s : Int)
    (hq : atoi q = some s) (h1 : 0 < s) (h2 : s ≤ (MaxDownloadSize : Int)) :
    (downloadHandler q (fun _ => false) (fun _ => none)).status = 200 ∧
    (downloadHandler q (fun _ => false) (fun _ => none)).contentLength = some s ∧
    (chunksTotal (downloadHandler q (fun _ => false) (fun _ => none)).chunks : Int) = s ∧
    (downloadHandler q (fun _ => false) (fun _ => none)).outcome = Outcome.completed := by
  rw [downloadHandler_valid_eq q s _ _ hq h1 h2]
  obtain ⟨hflat, hout⟩ := streamLoop_full s.toNat s.toNat 0 0 (by omega)
  have htot : chunksTotal (streamLoop (fun _ => false) (fun _ => none) s.toNat 0 0).1
      = s.toNat := by
    rw [chunksTotal_eq_flatten_length, hflat, List.length_replicate]
    omega
  refine ⟨rfl, rfl, ?_, hout⟩
  rw [htot]
  omega

/-- Witness for C1 at `size = 32768` (exactly one buffer). -/
theorem download_valid_size_exact_witness :
    (downloadHandler "32768" (fun _ => false) (fun _ => none)).status = 200 ∧
    (downloadHandler "32768" (fun _ => false) (fun _ => none)).contentLength = some 32768 ∧
    (chunksTotal (downloadHandler "32768" (fun _ => false) (fun _ => none)).chunks : Int)
      = 32768 ∧
    (downloadHandler "32768" (fun _ => false) (fun _ => none)).outcome = Outcome.completed :=
  download_valid_size_exact "32768" 32768 (by decide) (by decide) (by decide)

/-- C2 counterexample: the empty size value fails to parse as an integer
(`Atoi("")` errors), yet the handler answers 200, not 400 — it substitutes the
2 MiB default for `""` before parsing, so a request with an empty `size`
parameter is served rather than rejected. -/
theorem download_empty_size_accepted :
    atoi "" = none ∧
    (downloadHandler "" (fun _ => false) (fun _ => none)).status = 200 ∧
    (downloadHandler "" (fun _ => false) (fun _ => none)).status ≠ 400 :=
  ⟨rfl, rfl, by decide⟩

/-- C2 (amended): for every nonempty size parameter value that fails to parse
as an integer, parses to a value ≤ 0 (including exactly 0), or parses to a
value greater than MaxDownloadSize, the download handler responds 400 and
writes no payload bytes — only the error message. (The empty value is
excluded: the handler treats it as an omitted parameter and substitutes the
default.) -/
theorem download_invalid_size_rejected (q : String) (cancelled : Nat → Bool)
    (writeErr : Nat → Option Nat) (hne : ¬ q = "")
    (hbad : atoi q = none ∨
      ∃ s, atoi q = some s ∧ (s ≤ 0 ∨ (MaxDownloadSize : Int) < s)) :
    (downloadHandler q cancelled writeErr).status = 400 ∧
    (downloadHandler q cancelled writeErr).chunks = [] ∧
    ((downloadHandler q cancelled writeErr).errBody = some "invalid size parameter" ∨
     (downloadHandler q cancelled writeErr).errBody
        = some "size must be between 1 and 104857600 bytes") := by
  rcases hbad with hnone | ⟨s, hs, hrange⟩
  · simp [downloadHandler, if_neg hne, hnone]
  · simp only [downloadHandler, if_neg hne, hs]
    rw [if_pos hrange]
    exact ⟨rfl, rfl, Or.inr rfl⟩

/-- Witness for amended C2 at `size = 0`, the explicitly-questioned boundary:
zero is rejected with 400 and no payload bytes. -/
theorem download_invalid_size_rejected_witness :
    (downloadHandler "0" (fun _ => false) (fun _ => none)).status = 400 ∧
    (downloadHandler "0" (fun _ => false) (fun _ => none)).chunks = [] :=
  ⟨(download_invalid_size_rejected "0" (fun _ => false) (fun _ => none) (by decide)
      (Or.inr ⟨0, by decide, Or.inl (by decide)⟩)).1,
   (download_invalid_size_rejected "0" (fun _ => false) (fun _ => none) (by decide)
      (Or.inr ⟨0, by decide, Or.inl (by decide)⟩)).2.1⟩

/-- C3: an upload whose body is read to completion without error (length
within the cap, no I/O fault) is answered 200 with body "ok"; an upload whose
body read fails (over the cap, or any read I/O fault) is answered 413 and is
not answered 200. -/
theorem upload_cap_behavior (bodyLen : Nat) (readFault : Bool) :
    ((bodyLen ≤ MaxUploadSize ∧ readFault = false) →
      (uploadHandler bodyLen readFault).status = 200 ∧
      (uploadHandler bodyLen readFault).body = "ok") ∧
    ((MaxUploadSize < bodyLen ∨ readFault = true) →
      (uploadHandler bodyLen readFault).status = 413 ∧
      (uploadHandler bodyLen readFault).status ≠ 200) := by
  constructor
  · rintro ⟨hle, hf⟩
    subst hf
    simp [uploadHandler, copyToDiscard, Nat.not_lt.mpr hle]
  · rintro (hgt | hf)
    · cases readFault with
      | true => simp [uploadHandler, copyToDiscard]
      | false => simp [uploadHandler, copyToDiscard, hgt]
    · subst hf
      simp [uploadHandler, copyToDiscard]

/-- Witness for C3: a 5-byte body is accepted, a body one byte over the cap
is rejected with 413. -/
theorem upload_cap_behavior_witness :
    ((uploadHandler 5 false).status = 200 ∧ (uploadHandler 5 false).body = "ok") ∧
    ((uploadHandler (MaxUploadSize + 1) false).status = 413 ∧
     (uploadHandler (MaxUploadSize + 1) false).status ≠ 200) :=
  ⟨(upload_cap_behavior 5 false).1 ⟨by decide, rfl⟩,
   (upload_cap_behavior (MaxUploadSize + 1) false).2 (Or.inl (Nat.lt_succ_self _))⟩

/-- C4 (code bug): the listen address is NOT a function of the environment.
`main` passes the string constant `ServerPort` (":8080") to the server and the
source never reads any environment variable, although the repository's README
documents a `PORT` variable; an environment carrying `PORT=9090` still yields
":8080". -/
theorem serverListenAddr_ignores_env :
    (∀ env : String → Option String, serverListenAddr env = ":8080") ∧
    serverListenAddr (fun k => if k = "PORT" then some "9090" else none) = ":8080" :=
  ⟨fun _ => rfl, rfl⟩

/-- C5: at every step of a download — after each chunk write, under every
cancellation schedule and every (possibly partial) write-fault schedule — the
running total of payload bytes written, i.e. the byte count of any prefix of
the wire trace, never exceeds the validated size. -/
theorem download_written_le_size (q : String) (s : Int) (cancelled : Nat → Bool)
    (writeErr : Nat → Option Nat) (m : Nat)
    (hq : atoi q = some s) (h1 : 0 < s) (h2 : s ≤ (MaxDownloadSize : Int)) :
    (chunksTotal ((downloadHandler q cancelled writeErr).chunks.take m) : Int) ≤ s := by
  rw [downloadHandler_valid_eq q s _ _ hq h1 h2]
  have := streamLoop_take_le cancelled writeErr s.toNat s.toNat 0 0 (by omega) (by omega) m
  simp only at this ⊢
  omega

/-- Witness for C5 at `size = 70000`, trace prefix of 5 chunks. -/
theorem download_written_le_size_witness :
    (chunksTotal (((downloadHandler "70000" (fun _ => false) (fun _ => none)).chunks).take 5)
      : Int) ≤ 70000 :=
  download_written_le_size "70000" 70000 (fun _ => false) (fun _ => none) 5
    (by decide) (by decide) (by decide)

/-- C6: the cancellation signal is polled before every chunk write, so when it
is observed from check number `c` on, no chunk with index ≥ `c` is written
(at most `c` chunks in total, hence at most one buffer-sized chunk past the
moment the signal fired, which is at earliest during iteration `c - 1` after
its check); every chunk is at most one buffer long, and with no write fault
the handler never ends in a server-side write error. -/
theorem download_cancel_bounded (q : String) (s : Int) (c : Nat)
    (hq : atoi q = some s) (h1 : 0 < s) (h2 : s ≤ (MaxDownloadSize : Int)) :
    ((downloadHandler q (fun j => decide (c ≤ j)) (fun _ => none)).chunks).length ≤ c ∧
    (∀ ch ∈ (downloadHandler q (fun j => decide (c ≤ j)) (fun _ => none)).chunks,
        ch.length ≤ DefaultBufferSize) ∧
    (downloadHandler q (fun j => decide (c ≤ j)) (fun _ => none)).outcome
        ≠ Outcome.writeError := by
  rw [downloadHandler_valid_eq q s _ _ hq h1 h2]
  refine ⟨?_, ?_, ?_⟩
  · have := streamLoop_cancel_length (fun _ => none) c s.toNat s.toNat 0 0 (by omega)
    simpa using this
  · exact streamLoop_chunk_le _ _ s.toNat s.toNat 0 0 (by omega)
  · exact streamLoop_noErr_outcome _ s.toNat s.toNat 0 0 (by omega)

/-- Witness for C6: a 100000-byte download cancelled at check 2 writes at most
2 chunks and raises no write error. -/
theorem download_cancel_bounded_witness :
    ((downloadHandler "100000" (fun j => decide (2 ≤ j)) (fun _ => none)).chunks).length
      ≤ 2 ∧
    (downloadHandler "100000" (fun j => decide (2 ≤ j)) (fun _ => none)).outcome
      ≠ Outcome.writeError :=
  ⟨(download_cancel_bounded "100000" 100000 2 (by decide) (by decide) (by decide)).1,
   (download_cancel_bounded "100000" 100000 2 (by decide) (by decide) (by decide)).2.2⟩

/-- C7: a download request with the size parameter omitted is answered
successfully with a body of exactly the fixed default length of 2 MiB
(2 * 1024 * 1024 bytes). -/
theorem download_default_two_mib :
    (downloadHandler "" (fun _ => false) (fun _ => none)).status = 200 ∧
    chunksTotal (downloadHandler "" (fun _ => false) (fun _ => none)).chunks
      = 2 * 1024 * 1024 ∧
    (downloadHandler "" (fun _ => false) (fun _ => none)).outcome = Outcome.completed := by
  rw [downloadHandler_default]
  have hq : atoi (Nat.repr DefaultDownloadSize) = some 2097152 := by decide
  rw [downloadHandler_valid_eq (Nat.repr DefaultDownloadSize) 2097152 _ _ hq
    (by decide) (by decide)]
  obtain ⟨hflat, hout⟩ :=
    streamLoop_full (Int.toNat 2097152) (Int.toNat 2097152) 0 0 (by omega)
  refine ⟨rfl, ?_, (outcome_mk _ _ _ _ _ _).trans hout⟩
  rw [chunks_mk, chunksTotal_eq_flatten_length, hflat, List.length_replicate]
  decide

/-- C8: client-IP resolution obeys strict priority — a non-empty
CF-Connecting-IP wins; otherwise a non-empty X-Forwarded-For yields its first
comma-separated entry trimmed of whitespace; otherwise a non-empty X-Real-IP
wins; otherwise the transport-level remote address with its port stripped is
returned.  Resolution is a total function of the request, so it never causes
the request to fail. -/
theorem getClientIP_priority (cf xff xrip ra host port : String) :
    (cf ≠ "" → getClientIP cf xff xrip ra = cf) ∧
    (cf = "" → xff ≠ "" →
      getClientIP cf xff xrip ra
        = trimSpace (String.mk (xff.data.takeWhile (fun c => c ≠ ',')))) ∧
    (cf = "" → xff = "" → xrip ≠ "" → getClientIP cf xff xrip ra = xrip) ∧
    (cf = "" → xff = "" → xrip = "" → splitHostPort ra = some (host, port) →
      getClientIP cf xff xrip ra = host) := by
  refine ⟨fun h => by simp [getClientIP, h],
    fun h1 h2 => by simp [getClientIP, h1, h2],
    fun h1 h2 h3 => by simp [getClientIP, h1, h2, h3],
    fun h1 h2 h3 h4 => by simp [getClientIP, h1, h2, h3, h4]⟩

/-- Witness for C8: the spec's three examples plus X-Real-IP, evaluated
concretely. -/
theorem getClientIP_priority_witness :
    getClientIP "1.2.3.4" "5.6.7.8, 9.9.9.9" "" "10.0.0.1:443" = "1.2.3.4" ∧
    getClientIP "" "5.6.7.8, 9.9.9.9" "" "10.0.0.1:443" = "5.6.7.8" ∧
    getClientIP "" "" "7.7.7.7" "10.0.0.1:443" = "7.7.7.7" ∧
    getClientIP "" "" "" "10.0.0.1:443" = "10.0.0.1" := by
  refine ⟨(getClientIP_priority "1.2.3.4" "5.6.7.8, 9.9.9.9" "" "10.0.0.1:443" "" "").1
      (by decide), ?_, ?_, ?_⟩
  · exact ((getClientIP_priority "" "5.6.7.8, 9.9.9.9" "" "10.0.0.1:443" "" "").2.1
      rfl (by decide)).trans (by decide)
  · exact (getClientIP_priority "" "" "7.7.7.7" "10.0.0.1:443" "" "").2.2.1
      rfl rfl (by decide)
  · exact (getClientIP_priority "" "" "" "10.0.0.1:443" "10.0.0.1" "443").2.2.2
      rfl rfl rfl (by decide)

/-- C9: the health handler answers every request — whatever its method, query
or headers — with status 200 and the exact plain-text body "healthy", and
never fails. -/
theorem health_always_healthy (method query : String) (headers : List (String × String)) :
    healthHandler method query headers
      = { status := 200, contentType := some "text/plain", body := "healthy" } := rfl

/-- C10: every payload byte of a successful download is the zero byte — the
handler allocates a zero-initialised buffer and never writes into it, so for
every valid size the streamed body is exactly `size` zero bytes, deterministic
across requests. -/
theorem download_body_all_zero (q : String) (s : Int)
    (hq : atoi q = some s) (h1 : 0 < s) (h2 : s ≤ (MaxDownloadSize : Int)) :
    (downloadHandler q (fun _ => false) (fun _ => none)).chunks.flatten
      = List.replicate s.toNat 0 := by
  rw [downloadHandler_valid_eq q s _ _ hq h1 h2]
  obtain ⟨hflat, _⟩ := streamLoop_full s.toNat s.toNat 0 0 (by omega)
  show (streamLoop (fun _ => false) (fun _ => none) s.toNat 0 0).1.flatten
    = List.replicate s.toNat 0
  rw [hflat, Nat.sub_zero]

/-- Witness for C10 at `size = 3`: the body is three zero bytes. -/
theorem download_body_all_zero_witness :
    (downloadHandler "3" (fun _ => false) (fun _ => none)).chunks.flatten
      = List.replicate (Int.toNat 3) 0 :=
  download_body_all_zero "3" 3 (by decide) (by decide) (by decide)

end EchoStream
